import Mathlib

/-!
Verification development for the "Spot the Manipulation" quiz app
(`src/app.py`): a shallow embedding of its manifest loader, image loader,
and round-engine state machine, with theorems about the behaviours the
design document describes.

Strings are Lean `String`s, but every text operation the Python code
performs (`strip`, `lower`, `replace`, `split`, `os.path.join`) is
defined here by structural recursion over `String.data`, so that all
definitions evaluate inside the kernel.
-/

namespace SpotManip

/-- Characters Python's `str.strip()` removes (ASCII whitespace). -/
def pySpaceChar (c : Char) : Bool :=
  c = ' ' || c = '\t' || c = '\n' || c = '\r' || c = '\x0b' || c = '\x0c'

/-- Python `str.strip()`: drop leading and trailing whitespace. -/
def pyStrip (s : String) : String :=
  String.mk (((s.data.dropWhile pySpaceChar).reverse.dropWhile pySpaceChar).reverse)

/-- Python `str.lower()` (ASCII case folding, which covers the headers used). -/
def pyLower (s : String) : String :=
  String.mk (s.data.map Char.toLower)

/-- Python `rel.replace("\\", "/")`: the pattern is a single character,
so this is a character-wise substitution. -/
def pyBackslashToSlash (s : String) : String :=
  String.mk (s.data.map (fun c => if c = '\x5c' then '/' else c))

/-- Python `rel.split("/")` on the character list: `""` splits to `[""]`,
    `"a/b"` to `["a", "b"]`. -/
def splitSlashAux : List Char → List (List Char)
  | [] => [[]]
  | c :: rest =>
    let r := splitSlashAux rest
    if c = '/' then [] :: r
    else
      match r with
      | [] => [[c]]
      | h :: t => (c :: h) :: t

/-- Python `rel.split("/")`. -/
def pySplitSlash (s : String) : List String :=
  (splitSlashAux s.data).map String.mk

/-- Python `os.path.join(a, b)` for POSIX, restricted to a `b` that is not
absolute (the segments fed to it come from a split, so they contain no
separator). -/
def pjoin2 (a b : String) : String :=
  if a.data = [] then b
  else if a.data.getLast? = some '/' then String.mk (a.data ++ b.data)
  else String.mk (a.data ++ '/' :: b.data)

/-- Python `os.path.join(*segs)` as a left fold of `pjoin2`. -/
def pjoinList : List String → String
  | [] => ""
  | s :: rest => rest.foldl pjoin2 s

/-- Function `_norm_rel_path` from `src/app.py`: replace backslashes with `/`,
strip, and re-join the `/`-separated segments. -/
def norm_rel_path (rel : String) : String :=
  let r := pyStrip (pyBackslashToSlash rel)
  if r = "" then r else pjoinList (pySplitSlash r)

/-- Function `_abs_from_rel` from `src/app.py`: resolve a CSV-relative path under
the asset root (`WWW_DIR`), which we keep as a parameter `wwwDir`. -/
def abs_from_rel (wwwDir : String) (rel : String) : String :=
  pjoin2 wwwDir (norm_rel_path rel)

/-- An image on disk or in memory: its pixel dimensions, plus a record of
the resampling filter that produced it (`none` for a freshly opened file). -/
structure Img where
  width : Nat
  height : Nat
  resampledWith : Option String := none
deriving DecidableEq, Repr

/-- PIL `img.resize((w, h), filter)`, as used by `load_image`. -/
def resizeImg (w h : Nat) (filter : String) : Img :=
  { width := w, height := h, resampledWith := some filter }

/-- The filesystem, abstracted: maps an absolute path to the image stored
there, or `none` when no file exists at that path. -/
abbrev Fs := String → Option Img

/-- Predicate `os.path.exists` over the abstract filesystem. -/
def pathExists (fs : Fs) (p : String) : Bool :=
  (fs p).isSome

/-- One parsed CSV data row: one cell per header column, `none` where the
cell is missing (pandas `NaN` under `dtype=str`). -/
abbrev Row := List (Option String)

/-- A parsed CSV file: header names and data rows. -/
structure Csv where
  header : List String
  rows : List Row
deriving DecidableEq, Repr

/-- Column-name normalisation from `load_metadata`:
`df.columns = [c.strip().lower() for c in df.columns]`. -/
def normCols (header : List String) : List String :=
  header.map (fun c => pyLower (pyStrip c))

/-- Look a cell up by (normalised) column name; `none` when the column is
absent or the row is too short. -/
def getCol (cols : List String) (row : Row) (name : String) : Option String :=
  match cols.findIdx? (· = name) with
  | some i => row.getD i none
  | none => none

/-- The required columns, in the sorted order Python's
`sorted(missing_cols)` reports them. -/
def requiredCols : List String := ["fake_path", "real_path"]

/-- The required columns absent from the normalised header
(`required - set(df.columns)`, sorted). -/
def missingRequired (header : List String) : List String :=
  requiredCols.filter (fun c => ¬ (normCols header).contains c)

/-- Step `df.applymap(lambda x: x.strip() if isinstance(x, str) else x)`:
trim every string cell of a row. -/
def trimRow (row : Row) : Row :=
  row.map (Option.map pyStrip)

/-- Step `df.dropna(subset=["fake_path", "real_path"])`: both path cells present. -/
def rowNotNa (cols : List String) (row : Row) : Bool :=
  (getCol cols row "fake_path").isSome && (getCol cols row "real_path").isSome

/-- Step `df[(df["fake_path"] != "") & (df["real_path"] != "")]`: neither path
cell is the empty string. -/
def rowNonEmpty (cols : List String) (row : Row) : Bool :=
  (getCol cols row "fake_path" != some "") && (getCol cols row "real_path" != some "")

/-- Predicate `exists_row` from `load_metadata`: both resolved files exist. -/
def exists_row (fs : Fs) (wwwDir : String) (cols : List String) (row : Row) : Bool :=
  pathExists fs (abs_from_rel wwwDir ((getCol cols row "fake_path").getD ""))
    && pathExists fs (abs_from_rel wwwDir ((getCol cols row "real_path").getD ""))

/-- The loader's only failure mode: the schema check. The payload is the
sorted list of missing required columns, exactly what the `ValueError`
message names. -/
inductive LoadError where
  | schemaError (missing : List String)
deriving DecidableEq, Repr

/-- Function `load_metadata` from `src/app.py`, with the ambient effects as
parameters: `shuffle` stands for the row permutation `df.sample(frac=1)`
draws on this particular execution, `fs` for the filesystem, `wwwDir` for
`WWW_DIR`, and `csv` for the parsed content of `csv_path`.
Steps, in source order: normalise column names, check required columns,
trim cells, drop NaN paths, drop empty paths, early-return when empty,
keep rows whose two files exist, early-return when empty, shuffle, and
truncate to `min(rounds, len(df))`. -/
def load_metadata (shuffle : List Row → List Row) (fs : Fs) (wwwDir : String)
    (csv : Csv) (rounds : Nat) : Except LoadError (List Row) :=
  let cols := normCols csv.header
  if missingRequired csv.header ≠ [] then
    .error (.schemaError (missingRequired csv.header))
  else
    let df0 := csv.rows.map trimRow
    let df1 := (df0.filter (rowNotNa cols)).filter (rowNonEmpty cols)
    if df1.length = 0 then .ok df1
    else
      let df2 := df1.filter (exists_row fs wwwDir cols)
      if df2.length = 0 then .ok df2
      else
        let df3 := shuffle df2
        .ok (df3.take (min rounds df3.length))

/-- The rows that survive cleaning and the existence filter, before the
shuffle and truncation. -/
def survivingRows (fs : Fs) (wwwDir : String) (csv : Csv) : List Row :=
  let cols := normCols csv.header
  (((csv.rows.map trimRow).filter (rowNotNa cols)).filter (rowNonEmpty cols)).filter
    (exists_row fs wwwDir cols)

/-- Function `load_image` from `src/app.py`. `rel_path : Option String` models the
pandas cell it receives (`none` for a non-string NaN). The result pairs
the loaded image (or `none`) with whether `st.warning` was emitted.
Source order: non-string/empty check, existence check with a warning,
open, downscale with `Image.LANCZOS` when `img.width > max_width` using
`int(img.height * max_width / img.width)`, else return unscaled. -/
def load_image (fs : Fs) (wwwDir : String) (rel_path : Option String)
    (max_width : Nat := 450) : Option Img × Bool :=
  match rel_path with
  | none => (none, false)
  | some r =>
    if pyStrip r = "" then (none, false)
    else
      let abs_path := abs_from_rel wwwDir r
      match fs abs_path with
      | none => (none, true)
      | some img =>
        if max_width < img.width then
          (some (resizeImg max_width (img.height * max_width / img.width) "LANCZOS"), false)
        else
          (some img, false)

/-- One entry of `st.session_state.answers`:
`{"guess": ..., "correct": ...}`. -/
structure AnswerRecord where
  guess : String
  correct : Bool
deriving DecidableEq, Repr

/-- The per-session state the round engine owns: the dataset `df`, the
round index `step`, the answer log `answers`, the reveal flag
`show_real`, and the per-round widget stores (`guess_{i}` text inputs and
`correct_{i}` radios, modelled as maps from the round index). -/
structure GameState where
  df : List Row
  step : Nat
  answers : List AnswerRecord
  show_real : Bool
  guesses : Nat → String
  corrects : Nat → String

/-- Function `next_round` from `src/app.py`: advance the index, hide the real image. -/
def next_round (s : GameState) : GameState :=
  { s with step := s.step + 1, show_real := false }

/-- Function `record_answer` from `src/app.py`: read `guess_{step}` and
`correct_{step}` for the current `step`, append the answer record (correct
iff the radio value equals `"Yes"`), then `next_round`. -/
def record_answer (s : GameState) : GameState :=
  let guess_text := s.guesses s.step
  let correct_choice := s.corrects s.step
  next_round
    { s with answers := s.answers ++ [{ guess := guess_text, correct := correct_choice == "Yes" }] }

/-- The options of the `st.radio("Were you correct?", ["Yes", "No"], index=0, ...)`
control. -/
def correctOptions : List String := ["Yes", "No"]

/-- The radio's default selection index (`index=0`). -/
def correctDefaultIndex : Nat := 0

/-- The value the radio holds when the player never touches it. -/
def correctDefault : String := correctOptions.getD correctDefaultIndex ""

/-- Fresh session state as the `st.session_state` init block builds it:
index 0, empty log, real image hidden, widgets at their defaults
(`st.text_input` starts empty, the radio at `correctDefault`). -/
def initState (df : List Row) : GameState :=
  { df := df, step := 0, answers := [], show_real := false
  , guesses := fun _ => "", corrects := fun _ => correctDefault }

/-- The discrete user actions the rendered page offers. -/
inductive Action where
  | reveal
  | advance
  | restart
  | typeGuess (t : String)
  | chooseCorrect (v : String)

/-- One user action applied to the session state, guarded exactly by when
`src/app.py` renders the corresponding widget: everything is dead when
`total = 0` (`st.stop`); "Reveal Original" when in-game and not revealed;
"Next" (`record_answer`) when in-game and revealed; "Play Again" only on
the summary screen, where it swaps in `reloadDf` (whatever
`load_metadata` returns on that click) and resets index, log and flag;
typing updates the current round's widget store. An action whose widget
is not on screen leaves the state unchanged. -/
def stepAction (reloadDf : List Row) (s : GameState) : Action → GameState
  | .reveal =>
    if s.df.length ≠ 0 ∧ s.step < s.df.length ∧ s.show_real = false then
      { s with show_real := true }
    else s
  | .advance =>
    if s.df.length ≠ 0 ∧ s.step < s.df.length ∧ s.show_real = true then
      record_answer s
    else s
  | .restart =>
    if s.df.length ≠ 0 ∧ s.df.length ≤ s.step then
      { s with df := reloadDf, step := 0, answers := [], show_real := false }
    else s
  | .typeGuess t =>
    if s.df.length ≠ 0 ∧ s.step < s.df.length then
      { s with guesses := Function.update s.guesses s.step t }
    else s
  | .chooseCorrect v =>
    if s.df.length ≠ 0 ∧ s.step < s.df.length ∧ s.show_real = true then
      { s with corrects := Function.update s.corrects s.step v }
    else s

/-- Run a sequence of user actions from a starting state. -/
def runActions (reloadDf : List Row) (s : GameState) (acts : List Action) : GameState :=
  acts.foldl (stepAction reloadDf) s

/-- Constant `ROUNDS` from `src/app.py`. -/
def ROUNDS : Nat := 10

/-- The manifest filename both load sites pass. -/
def CSV_PATH : String := "manipulation_info.csv"

/-- The `@st.cache_data` store for `load_metadata`: results keyed by the
function's argument tuple `(csv_path, rounds)`. -/
abbrev Cache := List ((String × Nat) × List Row)

/-- Cache lookup by key. -/
def cacheLookup (c : Cache) (k : String × Nat) : Option (List Row) :=
  match c.find? (fun e => e.1 == k) with
  | some e => some e.2
  | none => none

/-- A call to the `@st.cache_data`-decorated `load_metadata`: on a key
hit the memoized rows are returned and the body — including its shuffle —
never runs; on a miss the body runs (with whatever shuffle `shuffle` this
execution would draw) and a successful result is stored. Errors are not
cached. `csvOf` maps a manifest path to its parsed content. -/
def cached_load_metadata (shuffle : List Row → List Row) (fs : Fs) (wwwDir : String)
    (csvOf : String → Csv) (c : Cache) (csv_path : String) (rounds : Nat) :
    Except LoadError (List Row) × Cache :=
  match cacheLookup c (csv_path, rounds) with
  | some v => (.ok v, c)
  | none =>
    match load_metadata shuffle fs wwwDir (csvOf csv_path) rounds with
    | .ok v => (.ok v, ((csv_path, rounds), v) :: c)
    | .error e => (.error e, c)

/-- Session state together with the `st.cache_data` store. -/
structure FullState where
  cache : Cache
  df : List Row
  step : Nat
  answers : List AnswerRecord
  show_real : Bool
deriving Inhabited, Repr

/-- The session-start block: `st.session_state.df = load_metadata(CSV_PATH, ROUNDS)`
through the caching decorator, then `step = 0`, `answers = []`,
`show_real = False`. -/
def init_session (shuffle : List Row → List Row) (fs : Fs) (wwwDir : String)
    (csvOf : String → Csv) (c : Cache) : Except LoadError FullState :=
  match cached_load_metadata shuffle fs wwwDir csvOf c CSV_PATH ROUNDS with
  | (.ok df, c2) =>
    .ok { cache := c2, df := df, step := 0, answers := [], show_real := false }
  | (.error e, _) => .error e

/-- The "Play Again" handler: reassign `st.session_state.df` from
`load_metadata(CSV_PATH, ROUNDS)` (again through the caching decorator,
with `freshShuffle` the permutation this execution would draw), and reset
`step`, `answers`, `show_real`. -/
def play_again (freshShuffle : List Row → List Row) (fs : Fs) (wwwDir : String)
    (csvOf : String → Csv) (s : FullState) : FullState :=
  match cached_load_metadata freshShuffle fs wwwDir csvOf s.cache CSV_PATH ROUNDS with
  | (.ok df, c2) =>
    { cache := c2, df := df, step := 0, answers := [], show_real := false }
  | (.error _, _) => s

/-! Concrete sample data used by the witnesses. -/

/-- A 600×400 image file. -/
def imgBig : Img := { width := 600, height := 400 }

/-- A filesystem on which every path exists and holds `imgBig`. -/
def fsAll : Fs := fun _ => some imgBig

/-- A filesystem with no files at all. -/
def fsNone : Fs := fun _ => none

/-- First manifest row of the sample CSV. -/
def rowA : Row := [some "fake/a.jpg", some "real/b.jpg"]

/-- Second manifest row of the sample CSV. -/
def rowC : Row := [some "fake/c.jpg", some "real/d.jpg"]

/-- A well-formed two-row manifest. -/
def csvGood : Csv := { header := ["fake_path", "real_path"], rows := [rowA, rowC] }

/-- A manifest whose `fake_path` column is missing. -/
def csvBad : Csv := { header := ["real_path", "comment"], rows := [] }

/-- Dataset length of a loader result, `none` on error. -/
def datasetLength : Except LoadError (List Row) → Option Nat
  | .ok ds => some ds.length
  | .error _ => none

/-- Holds when both loader results succeeded and carry the same rows up
to order (same multiset, so neither is a strict superset of the other). -/
def okPerm : Except LoadError (List Row) → Except LoadError (List Row) → Prop
  | .ok a, .ok b => a.Perm b
  | _, _ => False

/-- The survival condition for a cleaned (trimmed) manifest row, stated
as one predicate: both path cells present and non-empty, and both
resolved files exist. -/
def rowSurvives (fs : Fs) (wwwDir : String) (cols : List String) (row : Row) : Bool :=
  match getCol cols row "fake_path", getCol cols row "real_path" with
  | some f, some r =>
    (f != "") && (r != "") && pathExists fs (abs_from_rel wwwDir f)
      && pathExists fs (abs_from_rel wwwDir r)
  | _, _ => false

/-- The session invariant: the answer log has exactly one record per
completed round, and the index never exceeds the dataset length. -/
def sessionInv (s : GameState) : Prop :=
  s.answers.length = s.step ∧ s.step ≤ s.df.length

/-- A game state over the sample dataset, fresh from the init block. -/
def demoState : GameState := initState [rowA, rowC]

/-- The session state right after the sample session starts (initial
load executed with the identity shuffle, empty cache). -/
def s0demo : FullState :=
  (init_session id fsAll "www" (fun _ => csvGood) []).toOption.getD default

/-- The session state after clicking "Play Again" from `s0demo`, where
the runtime would have drawn `List.reverse` as the fresh shuffle. -/
def s1demo : FullState :=
  play_again List.reverse fsAll "www" (fun _ => csvGood) s0demo

/-! Theorems. -/

/-- When the schema check passes, the loader returns the surviving rows,
shuffled and truncated (or the empty dataset when nothing survives). -/
theorem load_metadata_eq_ok (shuffle : List Row → List Row) (fs : Fs) (wwwDir : String)
    (csv : Csv) (rounds : Nat) (hcols : missingRequired csv.header = []) :
    load_metadata shuffle fs wwwDir csv rounds =
      .ok (if survivingRows fs wwwDir csv = [] then []
           else (shuffle (survivingRows fs wwwDir csv)).take
                  (min rounds (shuffle (survivingRows fs wwwDir csv)).length)) := by
  have hne : ¬ missingRequired csv.header ≠ [] := by simp [hcols]
  simp only [load_metadata, survivingRows, if_neg hne, List.length_eq_zero]
  by_cases h1 : ((csv.rows.map trimRow).filter (rowNotNa (normCols csv.header))).filter
      (rowNonEmpty (normCols csv.header)) = []
  · rw [if_pos h1, h1]
    simp
  · rw [if_neg h1]
    by_cases h2 : (((csv.rows.map trimRow).filter (rowNotNa (normCols csv.header))).filter
        (rowNonEmpty (normCols csv.header))).filter (exists_row fs wwwDir (normCols csv.header)) = []
    · rw [if_pos h2, h2, if_pos rfl]
    · rw [if_neg h2, if_neg h2]

/-- C3: a manifest missing `fake_path` or `real_path` (matched
case-insensitively after trimming) makes the loader fail with the schema
error naming exactly the missing columns; when both are present the
loader never returns that error. -/
theorem schema_error_iff_missing (shuffle : List Row → List Row) (fs : Fs)
    (wwwDir : String) (csv : Csv) (rounds : Nat) :
    (missingRequired csv.header ≠ [] →
      load_metadata shuffle fs wwwDir csv rounds =
        .error (.schemaError (missingRequired csv.header)))
    ∧ (missingRequired csv.header = [] →
      ∀ e : LoadError, load_metadata shuffle fs wwwDir csv rounds ≠ .error e) := by
  constructor
  · intro h
    simp [load_metadata, h]
  · intro h e
    rw [load_metadata_eq_ok shuffle fs wwwDir csv rounds h]
    simp

/-- Witness for the schema check, on a manifest lacking `fake_path` and
on a well-formed one. -/
theorem schema_error_iff_missing_witness :
    load_metadata id fsAll "www" csvBad 10 = .error (.schemaError ["fake_path"])
    ∧ ∀ e : LoadError, load_metadata id fsAll "www" csvGood 10 ≠ .error e :=
  ⟨(schema_error_iff_missing id fsAll "www" csvBad 10).1 (by decide),
   (schema_error_iff_missing id fsAll "www" csvGood 10).2 (by decide)⟩

/-- C4: with both required columns present the loader succeeds with a
dataset of length exactly `min rounds survivingRowCount`, and an empty
survivor set yields the empty dataset, not an error. -/
theorem load_metadata_result_length (shuffle : List Row → List Row) (fs : Fs)
    (wwwDir : String) (csv : Csv) (rounds : Nat)
    (hperm : ∀ l : List Row, (shuffle l).Perm l)
    (hcols : missingRequired csv.header = []) :
    datasetLength (load_metadata shuffle fs wwwDir csv rounds) =
      some (min rounds (survivingRows fs wwwDir csv).length)
    ∧ (survivingRows fs wwwDir csv = [] →
        load_metadata shuffle fs wwwDir csv rounds = .ok []) := by
  rw [load_metadata_eq_ok shuffle fs wwwDir csv rounds hcols]
  constructor
  · by_cases h : survivingRows fs wwwDir csv = []
    · simp [h, datasetLength]
    · have hlen := (hperm (survivingRows fs wwwDir csv)).length_eq
      simp only [h, if_false, datasetLength, List.length_take, hlen]
      rw [inf_assoc, inf_idem]
  · intro h
    simp [h]

/-- Witness for the dataset-length theorem on the sample manifest. -/
theorem load_metadata_result_length_witness :
    datasetLength (load_metadata id fsAll "www" csvGood 10) =
      some (min 10 (survivingRows fsAll "www" csvGood).length) :=
  (load_metadata_result_length id fsAll "www" csvGood 10
    (fun l => List.Perm.refl l) (by decide)).1

/-- Three chained filters collapse to one filter by a combined predicate. -/
theorem filter3_eq_filter (p q e f : Row → Bool) (l : List Row)
    (h : ∀ a, (p a && q a && e a) = f a) :
    ((l.filter p).filter q).filter e = l.filter f := by
  rw [List.filter_filter, List.filter_filter]
  refine List.filter_congr ?_
  intro a _
  rw [← h a]
  cases p a <;> cases q a <;> cases e a <;> rfl

/-- The loader's three row filters amount to the single survival
condition `rowSurvives`. -/
theorem rowSurvives_eq_conj (fs : Fs) (wwwDir : String) (cols : List String) (row : Row) :
    (rowNotNa cols row && rowNonEmpty cols row && exists_row fs wwwDir cols row) =
      rowSurvives fs wwwDir cols row := by
  unfold rowNotNa rowNonEmpty exists_row rowSurvives
  rcases hf : getCol cols row "fake_path" with _ | f <;>
    rcases hr : getCol cols row "real_path" with _ | r
  · simp [hf, hr]
  · simp [hf, hr]
  · simp [hf, hr]
  · simp [hf, hr, Bool.and_assoc]
    rfl

/-- C5: a manifest row survives loading iff, after trimming every string
cell, both `fake_path` and `real_path` are present and non-empty and both
resolved paths exist; consequently every row of a returned dataset
references two existing files at load time. -/
theorem survivor_characterisation (fs : Fs) (wwwDir : String) (csv : Csv) :
    (survivingRows fs wwwDir csv =
      (csv.rows.map trimRow).filter (rowSurvives fs wwwDir (normCols csv.header)))
    ∧ (∀ (shuffle : List Row → List Row) (rounds : Nat) (ds : List Row),
        (∀ l : List Row, (shuffle l).Perm l) →
        load_metadata shuffle fs wwwDir csv rounds = Except.ok ds →
        ∀ row ∈ ds, rowSurvives fs wwwDir (normCols csv.header) row = true) := by
  have hchar : survivingRows fs wwwDir csv =
      (csv.rows.map trimRow).filter (rowSurvives fs wwwDir (normCols csv.header)) := by
    unfold survivingRows
    exact filter3_eq_filter _ _ _ _ _ (fun a => rowSurvives_eq_conj fs wwwDir _ a)
  refine ⟨hchar, ?_⟩
  intro shuffle rounds ds hperm hok row hrow
  by_cases hcols : missingRequired csv.header = []
  · rw [load_metadata_eq_ok shuffle fs wwwDir csv rounds hcols] at hok
    have hds : ds = if survivingRows fs wwwDir csv = [] then []
        else (shuffle (survivingRows fs wwwDir csv)).take
              (min rounds (shuffle (survivingRows fs wwwDir csv)).length) := by
      exact (Except.ok.injEq _ _).mp hok.symm
    by_cases hsurv : survivingRows fs wwwDir csv = []
    · rw [hds, if_pos hsurv] at hrow
      simp at hrow
    · rw [hds, if_neg hsurv] at hrow
      have h1 : row ∈ shuffle (survivingRows fs wwwDir csv) := List.take_subset _ _ hrow
      have h2 : row ∈ survivingRows fs wwwDir csv :=
        ((hperm (survivingRows fs wwwDir csv)).mem_iff).mp h1
      rw [hchar] at h2
      exact List.of_mem_filter h2
  · exfalso
    have := (schema_error_iff_missing shuffle fs wwwDir csv rounds).1 hcols
    rw [this] at hok
    exact Except.noConfusion hok

/-- Witness for the survivor characterisation on the sample manifest:
the filter identity instantiated, and the survival flag of a concrete
returned row. -/
theorem survivor_characterisation_witness :
    (survivingRows fsAll "www" csvGood =
      (csvGood.rows.map trimRow).filter (rowSurvives fsAll "www" (normCols csvGood.header)))
    ∧ rowSurvives fsAll "www" (normCols csvGood.header) rowA = true :=
  ⟨(survivor_characterisation fsAll "www" csvGood).1,
   (survivor_characterisation fsAll "www" csvGood).2 id 10 [rowA, rowC]
     (fun l => List.Perm.refl l) rfl rowA (by decide)⟩

/-- C6: re-running the loader on an unchanged manifest and filesystem —
with whatever fresh shuffles the two executions draw — yields the same
surviving rows up to order: the two datasets are permutations of each
other and of the surviving-row list, never a strict superset or subset. -/
theorem reload_same_surviving_set (σ1 σ2 : List Row → List Row) (fs : Fs)
    (wwwDir : String) (csv : Csv) (rounds : Nat)
    (h1 : ∀ l : List Row, (σ1 l).Perm l) (h2 : ∀ l : List Row, (σ2 l).Perm l)
    (hcols : missingRequired csv.header = [])
    (hr : (survivingRows fs wwwDir csv).length ≤ rounds) :
    okPerm (load_metadata σ1 fs wwwDir csv rounds) (load_metadata σ2 fs wwwDir csv rounds)
    ∧ okPerm (load_metadata σ1 fs wwwDir csv rounds)
        (Except.ok (survivingRows fs wwwDir csv)) := by
  rw [load_metadata_eq_ok σ1 fs wwwDir csv rounds hcols,
    load_metadata_eq_ok σ2 fs wwwDir csv rounds hcols]
  by_cases h : survivingRows fs wwwDir csv = []
  · rw [if_pos h, if_pos h, h]
    exact ⟨List.Perm.refl _, List.Perm.refl _⟩
  · rw [if_neg h, if_neg h]
    have take1 : (σ1 (survivingRows fs wwwDir csv)).take
        (min rounds (σ1 (survivingRows fs wwwDir csv)).length) =
        σ1 (survivingRows fs wwwDir csv) := by
      rw [(h1 (survivingRows fs wwwDir csv)).length_eq, min_eq_right hr,
        ← (h1 (survivingRows fs wwwDir csv)).length_eq, List.take_length]
    have take2 : (σ2 (survivingRows fs wwwDir csv)).take
        (min rounds (σ2 (survivingRows fs wwwDir csv)).length) =
        σ2 (survivingRows fs wwwDir csv) := by
      rw [(h2 (survivingRows fs wwwDir csv)).length_eq, min_eq_right hr,
        ← (h2 (survivingRows fs wwwDir csv)).length_eq, List.take_length]
    rw [take1, take2]
    exact ⟨(h1 _).trans (h2 _).symm, h1 _⟩

/-- Witness for the reload theorem: two loader runs over the sample
manifest with different shuffles. -/
theorem reload_same_surviving_set_witness :
    okPerm (load_metadata id fsAll "www" csvGood 10)
      (load_metadata List.reverse fsAll "www" csvGood 10)
    ∧ okPerm (load_metadata id fsAll "www" csvGood 10)
        (Except.ok (survivingRows fsAll "www" csvGood)) :=
  reload_same_surviving_set id List.reverse fsAll "www" csvGood 10
    (fun l => List.Perm.refl l) (fun l => List.reverse_perm l) (by decide) (by decide)

/-- C2: advancing from Revealed performs, in one step, the read of the
current round's widget values at the pre-advance index, the append of the
answer record built from them (correct iff the choice is `"Yes"`), the
increment of the index by exactly 1, and the reset of the reveal flag —
leaving the dataset untouched. -/
theorem record_answer_atomic (s : GameState) :
    (record_answer s).answers =
      s.answers ++ [{ guess := s.guesses s.step, correct := s.corrects s.step == "Yes" }]
    ∧ (record_answer s).step = s.step + 1
    ∧ (record_answer s).show_real = false
    ∧ (record_answer s).df = s.df
    ∧ (record_answer s).answers.length = s.answers.length + 1 :=
  ⟨rfl, rfl, rfl, rfl, by simp [record_answer, next_round]⟩

/-- Every user action preserves the session invariant. -/
theorem stepAction_preserves (reloadDf : List Row) (a : Action) (s : GameState)
    (h : sessionInv s) : sessionInv (stepAction reloadDf s a) := by
  rcases h with ⟨hlen, hle⟩
  cases a with
  | reveal =>
    simp only [stepAction]
    split
    · exact ⟨hlen, hle⟩
    · exact ⟨hlen, hle⟩
  | advance =>
    simp only [stepAction]
    split
    · rename_i hg
      refine ⟨?_, ?_⟩
      · simp [record_answer, next_round, hlen]
      · have hlt := hg.2.1
        simp only [record_answer, next_round]
        omega
    · exact ⟨hlen, hle⟩
  | restart =>
    simp only [stepAction]
    split
    · exact ⟨rfl, Nat.zero_le _⟩
    · exact ⟨hlen, hle⟩
  | typeGuess t =>
    simp only [stepAction]
    split
    · exact ⟨hlen, hle⟩
    · exact ⟨hlen, hle⟩
  | chooseCorrect v =>
    simp only [stepAction]
    split
    · exact ⟨hlen, hle⟩
    · exact ⟨hlen, hle⟩

/-- C9: in every session state reachable from the init block by user
actions, the answer log length equals the round index and the index stays
within the dataset length; moreover the reveal action changes neither the
index nor the log. -/
theorem reachable_session_invariant (df reloadDf : List Row) (acts : List Action) :
    sessionInv (runActions reloadDf (initState df) acts)
    ∧ (∀ s : GameState, (stepAction reloadDf s Action.reveal).step = s.step
        ∧ (stepAction reloadDf s Action.reveal).answers = s.answers) := by
  constructor
  · have main : ∀ (l : List Action) (s : GameState), sessionInv s →
        sessionInv (runActions reloadDf s l) := by
      intro l
      induction l with
      | nil => exact fun s h => h
      | cons a t ih =>
        intro s h
        exact ih (stepAction reloadDf s a) (stepAction_preserves reloadDf a s h)
    exact main acts (initState df) ⟨rfl, Nat.zero_le _⟩
  · intro s
    simp only [stepAction]
    split
    · exact ⟨rfl, rfl⟩
    · exact ⟨rfl, rfl⟩

/-- C10: the recorded flag is true exactly when the radio value is the
string `"Yes"` (case-sensitively — lowercase `"yes"` compares false), the
radio defaults to `"Yes"`, and advancing with the control untouched
records a correct answer. -/
theorem self_report_yes_semantics (s : GameState) :
    ((record_answer s).answers =
      s.answers ++ [{ guess := s.guesses s.step, correct := s.corrects s.step == "Yes" }])
    ∧ ((s.corrects s.step == "Yes") = true ↔ s.corrects s.step = "Yes")
    ∧ (correctDefault = "Yes")
    ∧ (("yes" == "Yes") = false)
    ∧ (s.corrects s.step = correctDefault →
        (record_answer s).answers =
          s.answers ++ [{ guess := s.guesses s.step, correct := true }]) := by
  refine ⟨rfl, beq_iff_eq, rfl, rfl, ?_⟩
  intro h
  simp [record_answer, next_round, h, correctDefault, correctOptions, correctDefaultIndex]

/-- Witness for the self-report semantics: advancing the fresh sample
state, whose radio still holds the default, records a correct answer. -/
theorem self_report_yes_semantics_witness :
    (record_answer demoState).answers =
      demoState.answers ++ [{ guess := demoState.guesses demoState.step, correct := true }] :=
  (self_report_yes_semantics demoState).2.2.2.2 rfl

/-- C7: a missing-image path never fails the round: a non-string or
blank path yields an absent image with no warning, a path whose resolved
file does not exist yields an absent image with a non-fatal warning, and
advancing a round does not depend on any image having loaded. -/
theorem load_image_absent_nonfatal (fs : Fs) (wwwDir : String) (mw : Nat) :
    (load_image fs wwwDir none mw = (none, false))
    ∧ (∀ r : String, pyStrip r = "" → load_image fs wwwDir (some r) mw = (none, false))
    ∧ (∀ r : String, pyStrip r ≠ "" → fs (abs_from_rel wwwDir r) = none →
        load_image fs wwwDir (some r) mw = (none, true))
    ∧ (∀ s : GameState, (record_answer s).step = s.step + 1
        ∧ (record_answer s).answers.length = s.answers.length + 1) := by
  refine ⟨rfl, ?_, ?_, ?_⟩
  · intro r h
    simp [load_image, h]
  · intro r h hfs
    simp [load_image, h, hfs]
  · intro s
    exact ⟨rfl, by simp [record_answer, next_round]⟩

/-- Witness for the absent-image theorem, on the empty filesystem. -/
theorem load_image_absent_nonfatal_witness :
    (load_image fsNone "www" none 450 = (none, false))
    ∧ (load_image fsNone "www" (some "   ") 450 = (none, false))
    ∧ (load_image fsNone "www" (some "fake/a.jpg") 450 = (none, true))
    ∧ ((record_answer demoState).step = demoState.step + 1) :=
  ⟨(load_image_absent_nonfatal fsNone "www" 450).1,
   (load_image_absent_nonfatal fsNone "www" 450).2.1 "   " (by decide),
   (load_image_absent_nonfatal fsNone "www" 450).2.2.1 "fake/a.jpg" (by decide) rfl,
   ((load_image_absent_nonfatal fsNone "www" 450).2.2.2 demoState).1⟩

/-- C8: a successfully opened image whose native width exceeds
`max_width` is resized to width `max_width` with the height scaled by the
same ratio, using the LANCZOS resampling filter; an image at or under
`max_width` is returned unscaled. -/
theorem image_downscaling (fs : Fs) (wwwDir r : String) (mw : Nat) (img : Img)
    (hne : pyStrip r ≠ "") (hfs : fs (abs_from_rel wwwDir r) = some img) :
    (mw < img.width →
      load_image fs wwwDir (some r) mw =
        (some (resizeImg mw (img.height * mw / img.width) "LANCZOS"), false))
    ∧ (img.width ≤ mw → load_image fs wwwDir (some r) mw = (some img, false)) := by
  constructor
  · intro h
    simp [load_image, hne, hfs, h]
  · intro h
    simp [load_image, hne, hfs, Nat.not_lt.mpr h]

/-- Witness for the scaling theorem: the 600×400 sample image is scaled
to 450×300 under `max_width = 450` and left alone under `max_width = 600`. -/
theorem image_downscaling_witness :
    (load_image fsAll "www" (some "fake/a.jpg") 450 =
      (some (resizeImg 450 (imgBig.height * 450 / imgBig.width) "LANCZOS"), false))
    ∧ (load_image fsAll "www" (some "fake/a.jpg") 600 = (some imgBig, false)) :=
  ⟨(image_downscaling fsAll "www" "fake/a.jpg" 450 imgBig (by decide) rfl).1 (by decide),
   (image_downscaling fsAll "www" "fake/a.jpg" 600 imgBig (by decide) rfl).2 (by decide)⟩

/-- C1: clicking "Play Again" does reset the index, the answer log and
the reveal flag, but — because `load_metadata` is memoized per
`(csv_path, rounds)` and the handler passes the same arguments as the
initial load — it receives the cached dataset back: the fresh shuffle the
reloading execution would have produced (here `List.reverse`) is never
applied, contradicting the required fresh, independently computed
re-shuffle. -/
theorem play_again_returns_cached_dataset :
    (init_session id fsAll "www" (fun _ => csvGood) []) = Except.ok s0demo
    ∧ load_metadata List.reverse fsAll "www" csvGood ROUNDS = Except.ok [rowC, rowA]
    ∧ s1demo.df = s0demo.df
    ∧ s0demo.df = [rowA, rowC]
    ∧ s1demo.df ≠ [rowC, rowA]
    ∧ s1demo.step = 0 ∧ s1demo.answers = [] ∧ s1demo.show_real = false :=
  ⟨rfl, rfl, rfl, rfl, by decide, rfl, rfl, rfl⟩

end SpotManip
